import Mathlib

/-!
Verification development for the weather-service repository (src/main.go).

The embedding models:
  - the temperature classifier getTemperature and its helper bw
    (src/main.go:99-122), over an explicit model of IEEE float32 values
    (finite values as exact rationals, plus NaN and the two infinities;
    every interval bound used by the code is a small integer, hence exactly
    representable, so rational comparison agrees with float32 comparison on
    finite values, and NaN comparisons are always false);
  - the query-parameter validator inlined in the request handler
    (src/main.go:54-76), parameterised over the external float parser
    (strconv.ParseFloat with bitSize 32);
  - the upstream client getWeather (src/main.go:124-164), parameterised
    over the external JSON decoder (json.Unmarshal) and over the network
    outcome;
  - the response shaping of the request handler and the error writer e
    (src/main.go:84-94 and 166-174), parameterised over the external JSON
    encoder (json.Marshal), with JSON objects modelled as ordered
    field-value lists.
-/

/-- Model of an IEEE-754 binary32 value as seen by the comparisons in the
source: NaN, the two infinities, or a finite value taken exactly (every
finite float32 is a rational number). -/
inductive F32 where
  | nan
  | neginf
  | posinf
  | finite (q : ℚ)
deriving DecidableEq

/-- IEEE-754 less-than on the model: any comparison against NaN is false;
on finite values it is the exact rational order. -/
def F32.lt : F32 → F32 → Bool
  | .nan, _ => false
  | _, .nan => false
  | .neginf, .neginf => false
  | .neginf, _ => true
  | _, .neginf => false
  | .posinf, _ => false
  | _, .posinf => true
  | .finite p, .finite q => decide (p < q)

/-- IEEE-754 less-or-equal on the model: any comparison against NaN is
false; on finite values it is the exact rational order. -/
def F32.le : F32 → F32 → Bool
  | .nan, _ => false
  | _, .nan => false
  | .neginf, _ => true
  | _, .neginf => false
  | _, .posinf => true
  | .posinf, _ => false
  | .finite p, .finite q => decide (p ≤ q)

/-- bw (src/main.go:120-122): x >= a && x < b.  The Go expression
x >= a is the IEEE comparison a <= x. -/
def bw (x a b : F32) : Bool :=
  F32.le a x && F32.lt x b

/-- getTemperature (src/main.go:99-118): the switch evaluates the bw cases
in source order, first match wins, default "HOT". -/
def getTemperature (x : F32) : String :=
  if bw x (.finite (-4)) (.finite 0) then "freezing"
  else if bw x (.finite 0) (.finite 4) then "very cold"
  else if bw x (.finite 4) (.finite 8) then "cold"
  else if bw x (.finite 8) (.finite 12) then "not so cold"
  else if bw x (.finite 12) (.finite 16) then "mild"
  else if bw x (.finite 16) (.finite 20) then "less mild"
  else if bw x (.finite 20) (.finite 24) then "getting hot"
  else "HOT"

/-- The interval table exactly as the spec lists it (section 4.3): lower
bound, upper bound, label, in evaluation order. -/
def intervalTable : List (ℚ × ℚ × String) :=
  [(-4, 0, "freezing"), (0, 4, "very cold"), (4, 8, "cold"),
   (8, 12, "not so cold"), (12, 16, "mild"), (16, 20, "less mild"),
   (20, 24, "getting hot")]

/-- Refinement definition following the words of the spec: the label of
the first half-open interval of the table containing t, default "HOT". -/
def classifySpec (t : F32) : String :=
  match intervalTable.find? (fun r => bw t (.finite r.1) (.finite r.2.1)) with
  | some r => r.2.2
  | none => "HOT"

/-- The eight distinct strings getTemperature can return. -/
def labelSet : Finset String :=
  {"freezing", "very cold", "cold", "not so cold", "mild", "less mild",
   "getting hot", "HOT"}

/-- One entry of the weather descriptor sequence of owmSuccessMessage
(src/main.go:20-22): the anonymous struct with field Main. -/
structure weatherEntry where
  Main : String
deriving DecidableEq

/-- The nested main block of owmSuccessMessage (src/main.go:23-25). -/
structure mainEntry where
  Temperature : F32
deriving DecidableEq

/-- owmSuccessMessage (src/main.go:19-26). -/
structure owmSuccessMessage where
  Weather : List weatherEntry
  Main : mainEntry
deriving DecidableEq

/-- owmErrorMessage (src/main.go:14-17); the json.Number code is kept as
its string form, which the claims never inspect. -/
structure owmErrorMessage where
  Code : String
  Message : String
deriving DecidableEq

/-- httpError (src/main.go:28-31). -/
structure httpError where
  Status : String
  Message : String
deriving DecidableEq

/-- response (src/main.go:37-41). -/
structure response where
  Status : String
  Condition : String
  TemperatureFeel : String
deriving DecidableEq

/-- The query-parameter validation inlined in the request handler
(src/main.go:54-76).  A query maps a key to its value list when present;
net/url never produces an empty value list, so a present key carries a
first value and the remaining values.  The external strconv.ParseFloat
with bitSize 32 becomes the parameter parse; the Go code indexes lat[0]
and lon[0], i.e. applies parse to the first value only.  The result pair
is (latitude, longitude). -/
def validate (parse : String → Option F32)
    (query : String → Option (String × List String)) :
    Except String (F32 × F32) :=
  match query "lat" with
  | none => .error "missing query parameter: lat"
  | some lat =>
    match query "lon" with
    | none => .error "missing query parameter: lon"
    | some lon =>
      match parse lat.1 with
      | none => .error "invalid value: lat"
      | some latitude =>
        match parse lon.1 with
        | none => .error "invalid value: lon"
        | some longitude => .ok (latitude, longitude)

/-- The observable outcome of the http.Get call and the io.ReadAll call in
getWeather (src/main.go:131-141): the request itself can fail, reading the
obtained body can fail, or a status code and a fully read body arrive. -/
inductive UpstreamOutcome where
  | netFailure
  | readFailure
  | httpResponse (statusCode : Nat) (body : String)
deriving DecidableEq

/-- getWeather (src/main.go:124-164) after the URL construction, with the
external json.Unmarshal into owmErrorMessage and owmSuccessMessage as the
parameters parseErr and parseOk (none models a decode error).  The
coordinates and the key only form the request URL, which the outcome
parameter abstracts. -/
def getWeather (parseErr : String → Option owmErrorMessage)
    (parseOk : String → Option owmSuccessMessage)
    (outcome : UpstreamOutcome) : Except String owmSuccessMessage :=
  match outcome with
  | .netFailure => .error "internal server error"
  | .readFailure => .error "internal server error"
  | .httpResponse statusCode body =>
    if statusCode ≠ 200 then
      match parseErr body with
      | none => .error "internal server error"
      | some oError => .error oError.Message
    else
      match parseOk body with
      | none => .error "internal server error"
      | some data => .ok data

/-- getWeather instrumented with defer semantics for resp.Body.Close()
(src/main.go:142): the second component records whether Close ran before
the function returned.  On netFailure no body exists.  The defer statement
stands after the io.ReadAll error check (src/main.go:137-142), so the
readFailure return happens before the defer is registered and Close does
not run; every return after line 142 runs the registered Close. -/
def getWeatherClose (parseErr : String → Option owmErrorMessage)
    (parseOk : String → Option owmSuccessMessage)
    (outcome : UpstreamOutcome) : Except String owmSuccessMessage × Bool :=
  match outcome with
  | .netFailure => (.error "internal server error", false)
  | .readFailure => (.error "internal server error", false)
  | .httpResponse statusCode body =>
    if statusCode ≠ 200 then
      match parseErr body with
      | none => (.error "internal server error", true)
      | some oError => (.error oError.Message, true)
    else
      match parseOk body with
      | none => (.error "internal server error", true)
      | some data => (.ok data, true)

/-- Whether the upstream response body was acquired at all: http.Get
returned a response (src/main.go:131-135); only then does resp.Body
exist. -/
def bodyAcquired : UpstreamOutcome → Bool
  | .netFailure => false
  | .readFailure => true
  | .httpResponse _ _ => true

/-- A JSON object as produced by json.Marshal on the structs of this
program: an ordered list of field name and string value, in struct field
order, which is how encoding/json lays the fields out. -/
def JsonBody := List (String × String)
deriving DecidableEq

/-- What a request handler run produces: an HTTP response with a status
code and a body, a panic from indexing data.Weather[0] out of range
(src/main.go:85), or the fatal panic in e (src/main.go:169). -/
inductive HandlerResult where
  | httpResponse (statusCode : Nat) (body : JsonBody)
  | indexOutOfRange
  | fatal
deriving DecidableEq

/-- json.Marshal on response (src/main.go:84): three fields in struct
order with their json tags; marshalling strings never fails, so the
result is always ok. -/
def marshalResponse (r : response) : Except String JsonBody :=
  .ok [("status", r.Status), ("condition", r.Condition),
       ("temperature_feel", r.TemperatureFeel)]

/-- json.Marshal on httpError (src/main.go:167): two fields in struct
order with their json tags; never fails. -/
def marshalHttpError (h : httpError) : Except String JsonBody :=
  .ok [("status", h.Status), ("message", h.Message)]

/-- e (src/main.go:166-174), parameterised over the external json.Marshal
on httpError: a marshal failure panics (fatal); otherwise w.Write sends
the body, and with no prior WriteHeader net/http uses status code 200. -/
def e (marshalErr : httpError → Except String JsonBody) (msg : String) :
    HandlerResult :=
  match marshalErr { Status := "error", Message := msg } with
  | .error _ => .fatal
  | .ok bytes => .httpResponse 200 bytes

/-- The request handler (src/main.go:51-94): validation, the getWeather
call, then response shaping.  Each error path calls e and returns; the
success path builds response with Status left at its zero value "",
Condition from data.Weather[0].Main (out of range when the sequence is
empty) and TemperatureFeel from getTemperature, marshals it (a marshal
error is passed to e), and writes it, which with no prior WriteHeader
sends status code 200. -/
def handleRequest (parse : String → Option F32)
    (query : String → Option (String × List String))
    (parseErr : String → Option owmErrorMessage)
    (parseOk : String → Option owmSuccessMessage)
    (outcome : UpstreamOutcome)
    (marshalResp : response → Except String JsonBody)
    (marshalErr : httpError → Except String JsonBody) : HandlerResult :=
  match validate parse query with
  | .error msg => e marshalErr msg
  | .ok _ =>
    match getWeather parseErr parseOk outcome with
    | .error msg => e marshalErr msg
    | .ok data =>
      match data.Weather with
      | [] => .indexOutOfRange
      | w :: _ =>
        match marshalResp { Status := "", Condition := w.Main,
                            TemperatureFeel :=
                              getTemperature data.Main.Temperature } with
        | .error msg => e marshalErr msg
        | .ok bytes => .httpResponse 200 bytes

/-- Helper: the instrumented client computes the same result as
getWeather. -/
theorem getWeatherClose_fst (parseErr : String → Option owmErrorMessage)
    (parseOk : String → Option owmSuccessMessage)
    (outcome : UpstreamOutcome) :
    (getWeatherClose parseErr parseOk outcome).1 =
      getWeather parseErr parseOk outcome := by
  cases outcome with
  | netFailure => rfl
  | readFailure => rfl
  | httpResponse s b =>
    simp only [getWeatherClose, getWeather]
    by_cases h : s ≠ 200
    · rw [if_pos h, if_pos h]
      cases parseErr b <;> rfl
    · rw [if_neg h, if_neg h]
      cases parseOk b <;> rfl

/-- Helper: every output of getTemperature lies in labelSet. -/
theorem getTemperature_mem_labelSet (t : F32) :
    getTemperature t ∈ labelSet := by
  unfold getTemperature
  split_ifs <;> decide

/-- C1: getTemperature returns the label of the first half-open interval
of the spec table containing t (first match wins in table order), and
"HOT" for any t below -4 or at or above 24; the listed boundary values
evaluate as the claim states. -/
theorem C1_classifier_table :
    (∀ t : F32, getTemperature t = classifySpec t) ∧
    (∀ q : ℚ, (q < -4 ∨ 24 ≤ q) → getTemperature (.finite q) = "HOT") ∧
    getTemperature (.finite (-4)) = "freezing" ∧
    getTemperature (.finite 0) = "very cold" ∧
    getTemperature (.finite (23999/1000)) = "getting hot" ∧
    getTemperature (.finite 24) = "HOT" ∧
    getTemperature (.finite (-100)) = "HOT" := by
  refine ⟨?_, ?_, by decide, by decide,
    by norm_num [getTemperature, bw, F32.le, F32.lt], by decide, by decide⟩
  · intro t
    unfold getTemperature classifySpec intervalTable
    simp only [List.find?]
    repeat' split <;> simp_all
  · intro q hq
    have n : ∀ a b : ℚ, -4 ≤ a → b ≤ 24 →
        ¬ (bw (.finite q) (.finite a) (.finite b) = true) := by
      intro a b ha hb h
      simp only [bw, F32.le, F32.lt, Bool.and_eq_true, decide_eq_true_eq] at h
      rcases hq with hq | hq <;> linarith [h.1, h.2]
    unfold getTemperature
    rw [if_neg (n _ _ (by norm_num) (by norm_num)),
        if_neg (n _ _ (by norm_num) (by norm_num)),
        if_neg (n _ _ (by norm_num) (by norm_num)),
        if_neg (n _ _ (by norm_num) (by norm_num)),
        if_neg (n _ _ (by norm_num) (by norm_num)),
        if_neg (n _ _ (by norm_num) (by norm_num)),
        if_neg (n _ _ (by norm_num) (by norm_num))]

/-- C1 witness: the below-range conjunct applied at q = -100. -/
theorem C1_classifier_table_witness :
    ((-100 : ℚ) < -4 ∨ (24 : ℚ) ≤ -100) ∧
      getTemperature (.finite (-100)) = "HOT" :=
  ⟨Or.inl (by norm_num),
   C1_classifier_table.2.1 (-100) (Or.inl (by norm_num))⟩

/-- C2 counterexample: the range of getTemperature does not contain nine
distinct strings; the code has only seven interval labels plus the
default, eight in all, while the claim says nine. -/
theorem C2_not_nine_labels :
    ¬ ∃ S : Finset String, S.card = 9 ∧ ∀ s ∈ S, ∃ t, getTemperature t = s := by
  rintro ⟨S, hcard, hrange⟩
  have hsub : S ⊆ labelSet := by
    intro s hs
    obtain ⟨t, ht⟩ := hrange s hs
    exact ht ▸ getTemperature_mem_labelSet t
  have hle := Finset.card_le_card hsub
  have hl : labelSet.card = 8 := by decide
  omega

/-- C2 amended: getTemperature is total and deterministic (it is a
function) and its range is exactly the eight fixed labels: every output
lies in labelSet, labelSet has eight elements, and each label is
attained. -/
theorem C2_eight_labels :
    (∀ t : F32, getTemperature t ∈ labelSet) ∧
    labelSet.card = 8 ∧
    (∀ s ∈ labelSet, ∃ t : F32, getTemperature t = s) := by
  refine ⟨getTemperature_mem_labelSet, by decide, ?_⟩
  intro s hs
  simp only [labelSet, Finset.mem_insert, Finset.mem_singleton] at hs
  rcases hs with rfl | rfl | rfl | rfl | rfl | rfl | rfl | rfl
  · exact ⟨.finite (-4), by decide⟩
  · exact ⟨.finite 0, by decide⟩
  · exact ⟨.finite 4, by decide⟩
  · exact ⟨.finite 8, by decide⟩
  · exact ⟨.finite 12, by decide⟩
  · exact ⟨.finite 16, by decide⟩
  · exact ⟨.finite 20, by decide⟩
  · exact ⟨.finite 24, by decide⟩

/-- C2 witness: the membership and attainment conjuncts at concrete
inputs. -/
theorem C2_eight_labels_witness :
    getTemperature (.finite 10) ∈ labelSet ∧
      ∃ t : F32, getTemperature t = "mild" :=
  ⟨C2_eight_labels.1 (.finite 10), C2_eight_labels.2.2 "mild" (by decide)⟩

/-- C3: the validator checks presence of lat then of lon, then parses the
first lat value, then the first lon value, failing with the exact message
of the first failing step, and otherwise yields the parsed pair with no
bounds check on either value. -/
theorem C3_validator_order (parse : String → Option F32)
    (query : String → Option (String × List String)) :
    (query "lat" = none →
      validate parse query = .error "missing query parameter: lat") ∧
    (∀ lat, query "lat" = some lat → query "lon" = none →
      validate parse query = .error "missing query parameter: lon") ∧
    (∀ lat lon, query "lat" = some lat → query "lon" = some lon →
      parse lat.1 = none →
      validate parse query = .error "invalid value: lat") ∧
    (∀ lat lon x, query "lat" = some lat → query "lon" = some lon →
      parse lat.1 = some x → parse lon.1 = none →
      validate parse query = .error "invalid value: lon") ∧
    (∀ lat lon x y, query "lat" = some lat → query "lon" = some lon →
      parse lat.1 = some x → parse lon.1 = some y →
      validate parse query = .ok (x, y)) := by
  refine ⟨?_, ?_, ?_, ?_, ?_⟩ <;> intros <;> simp_all [validate]

/-- C3 witness: all five validator branches at concrete queries. -/
theorem C3_validator_order_witness :
    validate (fun _ => none) (fun _ => none) =
      .error "missing query parameter: lat" ∧
    validate (fun _ => none)
      (fun k => if k = "lat" then some ("9", []) else none) =
      .error "missing query parameter: lon" ∧
    validate (fun _ => none)
      (fun k => if k = "lat" then some ("a", [])
                else if k = "lon" then some ("b", []) else none) =
      .error "invalid value: lat" ∧
    validate (fun s => if s = "a" then some (.finite 1) else none)
      (fun k => if k = "lat" then some ("a", [])
                else if k = "lon" then some ("b", []) else none) =
      .error "invalid value: lon" ∧
    validate (fun _ => some (.finite 2))
      (fun k => if k = "lat" then some ("a", [])
                else if k = "lon" then some ("b", []) else none) =
      .ok (.finite 2, .finite 2) :=
  ⟨(C3_validator_order _ _).1 rfl,
   (C3_validator_order _ _).2.1 ("9", []) rfl rfl,
   (C3_validator_order _ _).2.2.1 ("a", []) ("b", []) rfl rfl rfl,
   (C3_validator_order _ _).2.2.2.1 ("a", []) ("b", []) (.finite 1)
     rfl rfl rfl rfl,
   (C3_validator_order _ _).2.2.2.2 ("a", []) ("b", []) (.finite 2)
     (.finite 2) rfl rfl rfl rfl⟩

/-- C10: when lat is present but unparseable and lon is absent, the
validator reports the missing lon, not the invalid lat: both presence
checks run before any parse. -/
theorem C10_missing_lon_before_parse (parse : String → Option F32)
    (query : String → Option (String × List String))
    (lat : String × List String)
    (hlat : query "lat" = some lat) (hlon : query "lon" = none)
    (hbad : parse lat.1 = none) :
    validate parse query = .error "missing query parameter: lon" ∧
    validate parse query ≠ .error "invalid value: lat" := by
  constructor
  · simp [validate, hlat, hlon]
  · simp [validate, hlat, hlon]

/-- C10 witness: a concrete query with an unparseable lat and no lon. -/
theorem C10_missing_lon_before_parse_witness :
    validate (fun _ => none)
        (fun k => if k = "lat" then some ("abc", []) else none) =
      .error "missing query parameter: lon" ∧
    validate (fun _ => none)
        (fun k => if k = "lat" then some ("abc", []) else none) ≠
      .error "invalid value: lat" :=
  C10_missing_lon_before_parse (fun _ => none)
    (fun k => if k = "lat" then some ("abc", []) else none)
    ("abc", []) rfl rfl rfl

/-- C4: getWeather maps a network failure and a body-read failure to the
generic internal server error, a non-success status with a parseable
error payload to exactly the provider message, and any parse failure
(error payload on non-success, success payload on success) to the generic
internal server error. -/
theorem C4_getWeather_error_translation
    (parseErr : String → Option owmErrorMessage)
    (parseOk : String → Option owmSuccessMessage) :
    getWeather parseErr parseOk .netFailure =
      .error "internal server error" ∧
    getWeather parseErr parseOk .readFailure =
      .error "internal server error" ∧
    (∀ status body oError, status ≠ 200 → parseErr body = some oError →
      getWeather parseErr parseOk (.httpResponse status body) =
        .error oError.Message) ∧
    (∀ status body, status ≠ 200 → parseErr body = none →
      getWeather parseErr parseOk (.httpResponse status body) =
        .error "internal server error") ∧
    (∀ body, parseOk body = none →
      getWeather parseErr parseOk (.httpResponse 200 body) =
        .error "internal server error") := by
  refine ⟨rfl, rfl, ?_, ?_, ?_⟩ <;> intros <;> simp_all [getWeather]

/-- C4 witness: the three conditional branches at concrete outcomes. -/
theorem C4_getWeather_error_translation_witness :
    getWeather (fun _ => some ⟨"404", "city not found"⟩) (fun _ => none)
      (.httpResponse 404 "b") = .error "city not found" ∧
    getWeather (fun _ => none) (fun _ => none) (.httpResponse 500 "b") =
      .error "internal server error" ∧
    getWeather (fun _ => none) (fun _ => none) (.httpResponse 200 "b") =
      .error "internal server error" :=
  ⟨(C4_getWeather_error_translation _ _).2.2.1 404 "b"
      ⟨"404", "city not found"⟩ (by decide) rfl,
   (C4_getWeather_error_translation _ _).2.2.2.1 500 "b" (by decide) rfl,
   (C4_getWeather_error_translation _ _).2.2.2.2 "b" rfl⟩

/-- C5: on success the body is exactly the three fields status (empty
string), condition (first weather descriptor label) and temperature_feel
(classifier output) in that order with nothing else; on every validation
or upstream failure the body is status error plus the message; the HTTP
status code is 200 on both paths. -/
theorem C5_response_shape (parse : String → Option F32)
    (query : String → Option (String × List String))
    (parseErr : String → Option owmErrorMessage)
    (parseOk : String → Option owmSuccessMessage)
    (outcome : UpstreamOutcome) :
    (∀ coords data w ws, validate parse query = .ok coords →
      getWeather parseErr parseOk outcome = .ok data →
      data.Weather = w :: ws →
      handleRequest parse query parseErr parseOk outcome
          marshalResponse marshalHttpError =
        .httpResponse 200
          [("status", ""), ("condition", w.Main),
           ("temperature_feel", getTemperature data.Main.Temperature)]) ∧
    (∀ msg, validate parse query = .error msg →
      handleRequest parse query parseErr parseOk outcome
          marshalResponse marshalHttpError =
        .httpResponse 200 [("status", "error"), ("message", msg)]) ∧
    (∀ coords msg, validate parse query = .ok coords →
      getWeather parseErr parseOk outcome = .error msg →
      handleRequest parse query parseErr parseOk outcome
          marshalResponse marshalHttpError =
        .httpResponse 200 [("status", "error"), ("message", msg)]) := by
  refine ⟨?_, ?_, ?_⟩ <;> intros <;>
    simp_all [handleRequest, e, marshalResponse, marshalHttpError]

/-- C5 witness: the success path at the spec example (18.5 degrees,
Clear), a validation failure and an upstream failure. -/
theorem C5_response_shape_witness :
    handleRequest (fun _ => some (.finite 1)) (fun _ => some ("1", []))
        (fun _ => none)
        (fun _ => some ⟨[⟨"Clear"⟩], ⟨.finite (37/2)⟩⟩)
        (.httpResponse 200 "w") marshalResponse marshalHttpError =
      .httpResponse 200
        [("status", ""), ("condition", "Clear"),
         ("temperature_feel", "less mild")] ∧
    handleRequest (fun _ => some (.finite 1)) (fun _ => none)
        (fun _ => none) (fun _ => none)
        .netFailure marshalResponse marshalHttpError =
      .httpResponse 200
        [("status", "error"), ("message", "missing query parameter: lat")] ∧
    handleRequest (fun _ => some (.finite 1)) (fun _ => some ("1", []))
        (fun _ => none) (fun _ => none)
        .netFailure marshalResponse marshalHttpError =
      .httpResponse 200
        [("status", "error"), ("message", "internal server error")] := by
  refine ⟨?_, ?_, ?_⟩
  · have h := (C5_response_shape (fun _ => some (.finite 1))
      (fun _ => some ("1", [])) (fun _ => none)
      (fun _ => some ⟨[⟨"Clear"⟩], ⟨.finite (37/2)⟩⟩)
      (.httpResponse 200 "w")).1 (.finite 1, .finite 1)
      ⟨[⟨"Clear"⟩], ⟨.finite (37/2)⟩⟩ ⟨"Clear"⟩ [] rfl rfl rfl
    rw [h]
    norm_num [getTemperature, bw, F32.le, F32.lt]
  · exact (C5_response_shape (fun _ => some (.finite 1)) (fun _ => none)
      (fun _ => none) (fun _ => none) .netFailure).2.1
      "missing query parameter: lat" rfl
  · exact (C5_response_shape (fun _ => some (.finite 1))
      (fun _ => some ("1", [])) (fun _ => none) (fun _ => none)
      .netFailure).2.2 (.finite 1, .finite 1) "internal server error"
      rfl rfl

/-- C6: an upstream success payload whose weather descriptor sequence is
empty reaches the out-of-range indexing of data.Weather[0]: the crash
branch of the handler is reachable. -/
theorem C6_empty_weather_crash :
    handleRequest (fun _ => some (.finite 0)) (fun _ => some ("0", []))
        (fun _ => none) (fun _ => some ⟨[], ⟨.finite 0⟩⟩)
        (.httpResponse 200 "b") marshalResponse marshalHttpError =
      .indexOutOfRange := by
  rfl

/-- C7 counterexample: a serialization failure of the success response
shape is converted into an error response through e, not escalated as
fatal, refuting the claim for the success shape. -/
theorem C7_success_marshal_not_fatal :
    handleRequest (fun _ => some (.finite 0)) (fun _ => some ("0", []))
        (fun _ => none) (fun _ => some ⟨[⟨"Clear"⟩], ⟨.finite 0⟩⟩)
        (.httpResponse 200 "b") (fun _ => .error "marshal failure")
        marshalHttpError =
      .httpResponse 200
        [("status", "error"), ("message", "marshal failure")] ∧
    handleRequest (fun _ => some (.finite 0)) (fun _ => some ("0", []))
        (fun _ => none) (fun _ => some ⟨[⟨"Clear"⟩], ⟨.finite 0⟩⟩)
        (.httpResponse 200 "b") (fun _ => .error "marshal failure")
        marshalHttpError ≠ .fatal := by
  exact ⟨rfl, by decide⟩

/-- C7 amended: a serialization failure of the success response shape is
passed to e and becomes an error response carrying the serializer's
message; only a serialization failure of the error shape inside e is
escalated as fatal. -/
theorem C7_marshal_failure_paths (parse : String → Option F32)
    (query : String → Option (String × List String))
    (parseErr : String → Option owmErrorMessage)
    (parseOk : String → Option owmSuccessMessage)
    (outcome : UpstreamOutcome)
    (marshalResp : response → Except String JsonBody)
    (marshalErr : httpError → Except String JsonBody) :
    (∀ coords data w ws emsg ebytes,
      validate parse query = .ok coords →
      getWeather parseErr parseOk outcome = .ok data →
      data.Weather = w :: ws →
      marshalResp { Status := "", Condition := w.Main,
                    TemperatureFeel :=
                      getTemperature data.Main.Temperature } =
        .error emsg →
      marshalErr { Status := "error", Message := emsg } = .ok ebytes →
      handleRequest parse query parseErr parseOk outcome marshalResp
          marshalErr =
        .httpResponse 200 ebytes) ∧
    (∀ msg emsg,
      marshalErr { Status := "error", Message := msg } = .error emsg →
      e marshalErr msg = .fatal) := by
  constructor
  · intros; simp_all [handleRequest, e]
  · intros; simp_all [e]

/-- C7 amended witness: a failing success-shape serializer yields the
error response; a failing error-shape serializer is fatal. -/
theorem C7_marshal_failure_paths_witness :
    handleRequest (fun _ => some (.finite 0)) (fun _ => some ("0", []))
        (fun _ => none) (fun _ => some ⟨[⟨"Rain"⟩], ⟨.finite 5⟩⟩)
        (.httpResponse 200 "b") (fun _ => .error "mf") marshalHttpError =
      .httpResponse 200 [("status", "error"), ("message", "mf")] ∧
    e (fun _ => .error "boom") "any" = .fatal :=
  ⟨(C7_marshal_failure_paths (fun _ => some (.finite 0))
      (fun _ => some ("0", [])) (fun _ => none)
      (fun _ => some ⟨[⟨"Rain"⟩], ⟨.finite 5⟩⟩) (.httpResponse 200 "b")
      (fun _ => .error "mf") marshalHttpError).1 (.finite 0, .finite 0)
      ⟨[⟨"Rain"⟩], ⟨.finite 5⟩⟩ ⟨"Rain"⟩ [] "mf"
      [("status", "error"), ("message", "mf")] rfl rfl rfl rfl rfl,
   (C7_marshal_failure_paths (fun _ => none) (fun _ => none)
      (fun _ => none) (fun _ => none) .netFailure (fun _ => .error "x")
      (fun _ => .error "boom")).2 "any" "boom" rfl⟩

/-- C8: on the read-failure exit the body was acquired but Close does not
run, because the defer stands after the ReadAll error return; every exit
after a successful read does close the body.  This contradicts the claim
that every exit path with an acquired body closes it. -/
theorem C8_read_failure_body_not_closed :
    bodyAcquired .readFailure = true ∧
    (∀ parseErr parseOk,
      (getWeatherClose parseErr parseOk .readFailure).2 = false) ∧
    (∀ parseErr parseOk status body,
      (getWeatherClose parseErr parseOk (.httpResponse status body)).2 =
        true) := by
  refine ⟨rfl, fun _ _ => rfl, ?_⟩
  intro parseErr parseOk status body
  simp only [getWeatherClose]
  by_cases h : status ≠ 200
  · rw [if_pos h]; cases parseErr body <;> rfl
  · rw [if_neg h]; cases parseOk body <;> rfl

/-- C9: a NaN temperature matches no interval, since every IEEE
comparison against NaN is false, so getTemperature returns "HOT". -/
theorem C9_nan_is_hot :
    getTemperature F32.nan = "HOT" ∧
      ∀ a b : F32, bw F32.nan a b = false := by
  refine ⟨rfl, ?_⟩
  intro a b
  cases a <;> cases b <;> rfl
